import Mathlib

/-!
Verification development for the 3win business-incubator backend
(src/index.js and the src/unnamed/part_000 variant).

The embedded core is the conversational session engine:
  * generateContentWithRetry — the resilient wrapper around the external
    text-generation call (bounded retry, backoff on HTTP 429);
  * the in-memory session store (a map from student id to session record);
  * generateNextQuestion — the BMC engine step;
  * handleDesignAssistant — the design-chat step with keyword topic
    classification and deterministic fallback text;
  * the HTTP-facing operations /api/start, /api/next, /api/chat;
  * the periodic expired-session sweep.

Machine behaviour of the external model is abstracted as a function from the
attempt number (1-based) to an outcome, since within one call the prompt is
fixed; timestamps are integers (milliseconds).
-/

/-- A JavaScript error value as far as the retry loop inspects it:
only the (optional) numeric `status` field is examined (`error.status === 429`).
The message is kept so that distinct errors stay distinct. -/
structure JsError where
  status : Option Nat
  msg : String
deriving DecidableEq, Repr

/-- Outcome of one `model.generateContent` attempt: the resolved text or a
thrown error. -/
inductive GenOutcome where
  | ok (text : String)
  | err (e : JsError)
deriving DecidableEq, Repr

/-- Behaviour of the external model during one `generateContentWithRetry`
call: what attempt number n (1-based) produces. -/
def ModelBehavior : Type := Nat → GenOutcome

/-- Result of a whole `generateContentWithRetry` call, instrumented with the
number of attempts made and the total artificial backoff delay slept.
`result = Except.error le` models `throw lastError` (with `le = none` when the
loop never ran and `lastError` is still `undefined`). -/
structure RetryResult where
  result : Except (Option JsError) String
  attempts : Nat
  totalSleep : Nat
deriving Repr

/-- The retry loop body of `generateContentWithRetry` (src/index.js lines
76–95).  `attempt` is the current 1-based attempt number and `remaining` the
number of loop iterations still allowed (`maxRetries - attempt + 1`); the JS
loop condition `attempt <= maxRetries` corresponds to `remaining > 0`.
On an error with `status === 429` the code sleeps `attempt * 2000` ms
unconditionally (even when this was the last attempt) and continues; on any
other error it breaks out and the trailing `throw lastError` fires. -/
def retryGo (gen : ModelBehavior) : Nat → Nat → Option JsError → Nat → Nat → RetryResult
  | _, 0, lastError, attemptsAcc, sleepAcc =>
      { result := .error lastError, attempts := attemptsAcc, totalSleep := sleepAcc }
  | attempt, remaining + 1, _, attemptsAcc, sleepAcc =>
      match gen attempt with
      | .ok text =>
          { result := .ok text, attempts := attemptsAcc + 1, totalSleep := sleepAcc }
      | .err e =>
          if e.status = some 429 then
            retryGo gen (attempt + 1) remaining (some e) (attemptsAcc + 1)
              (sleepAcc + attempt * 2000)
          else
            { result := .error (some e), attempts := attemptsAcc + 1, totalSleep := sleepAcc }

/-- `generateContentWithRetry(prompt, maxRetries = 3)` (src/index.js lines
73–98), with the external model abstracted as `gen`. -/
def generateContentWithRetry (gen : ModelBehavior) (maxRetries : Nat := 3) : RetryResult :=
  retryGo gen 1 maxRetries none 0 0

/-- A model that reports rate-limiting (HTTP 429) on every attempt. -/
def err429 : JsError := { status := some 429, msg := "Resource has been exhausted" }

/-- Behaviour: every attempt fails with the 429 error. -/
def always429 : ModelBehavior := fun _ => .err err429

/-- Behaviour of an unconfigured model: `model.generateContent` throws a
TypeError (no `status` field) on every attempt, so the retry loop breaks at
once. -/
def modelUnavailable : ModelBehavior :=
  fun _ => .err { status := none, msg := "Cannot read properties of undefined" }

/-- The backoff sum `2000 + 4000 + ... + n*2000` (0 for n = 0). -/
def backoffSum : Nat → Nat
  | 0 => 0
  | n + 1 => backoffSum n + (n + 1) * 2000

/-- Total sleep accumulated by the loop over `len` consecutive failing
attempts starting at attempt number `attempt`. -/
def sleepSpan (attempt : Nat) : Nat → Nat
  | 0 => 0
  | len + 1 => attempt * 2000 + sleepSpan (attempt + 1) len

/-- One transcript turn: an object of shape `{role, content}`. -/
structure Turn where
  role : String
  content : String
deriving DecidableEq, Repr

/-- One session record of the global `sessions` map.  The source creates
sessions with different shapes at different sites, so the fields that are
sometimes absent are Options (`none` = field not set in the JS object):
`/api/start` sets all four, the design-chat auto-create omits `createdAt`,
and the auto-create inside generateNextQuestion omits both `bmcProgress` and
`createdAt`.  The `bmcData` field (always the empty object, never read) is
omitted. -/
structure Session where
  chat : List Turn
  mode : String
  bmcProgress : Option Nat
  createdAt : Option Int
deriving DecidableEq, Repr

/-- The global `sessions` map, as an association list keyed by student id. -/
abbrev Sessions : Type := List (String × Session)

/-- Read `sessions[id]` (undefined ↦ none). -/
def lookupS : Sessions → String → Option Session
  | [], _ => none
  | (k, v) :: rest, id => if k = id then some v else lookupS rest id

/-- Write `sessions[id] = s` (overwrites an existing entry). -/
def setS : Sessions → String → Session → Sessions
  | [], id, s => [(id, s)]
  | (k, v) :: rest, id, s =>
      if k = id then (k, s) :: rest else (k, v) :: setS rest id s

/-- The fixed catalog of nine BMC sections (src/index.js lines 207–211). -/
def BMC_SECTIONS : List String :=
  ["Key Partners", "Key Activities", "Value Propositions",
   "Customer Relationships", "Customer Segments", "Key Resources",
   "Channels", "Cost Structure", "Revenue Streams"]

/-- The `fallbackQuestions` object of generateNextQuestion (src/index.js lines
246–256): the fixed fallback question for each section name. -/
def fallbackQuestions (sec : String) : Option String :=
  if sec = "Key Partners" then some "من هم الشركاء الرئيسيون الذين تحتاجهم لتنفيذ مشروعك؟"
  else if sec = "Key Activities" then some "ما هي الأنشطة الرئيسية التي يجب القيام بها لتقديم قيمة للعملاء؟"
  else if sec = "Value Propositions" then some "ما هي القيمة المميزة التي يقدمها مشروعك للعملاء؟"
  else if sec = "Customer Relationships" then some "كيف ستبني وتحافظ على علاقات مع عملائك؟"
  else if sec = "Customer Segments" then some "من هم العملاء المستهدفون لمشروعك؟"
  else if sec = "Key Resources" then some "ما هي الموارد الرئيسية التي تحتاجها لتشغيل المشروع؟"
  else if sec = "Channels" then some "كيف ستصل إلى عملائك وتقدم لهم خدماتك؟"
  else if sec = "Cost Structure" then some "ما هي التكاليف الرئيسية التي ستتحملها في مشروعك؟"
  else if sec = "Revenue Streams" then some "كيف ستحقق الإيرادات من مشروعك؟"
  else none

/-- The generic question used when a section has no fallback entry
(src/index.js line 258, the right operand of the JS `||`). -/
def defaultFallbackQuestion : String := "أخبرني المزيد عن هذا الجانب من مشروعك."

/-- The session shape created by `if (!sessions[sessionId]) sessions[sessionId]
= { chat: [], mode: "bmc" }` inside generateNextQuestion. -/
def bareBmcSession : Session :=
  { chat := [], mode := "bmc", bmcProgress := none, createdAt := none }

/-- `generateNextQuestion(sessionId)` (src/index.js lines 213–264), with the
external model abstracted as `gen` and the global `sessions` map passed and
returned explicitly.  The prompt built on lines 230–235 only feeds the
abstracted model call and is not embedded.  Section resolution mirrors
`BMC_SECTIONS[(sessions[sessionId]?.bmcProgress || 0) % BMC_SECTIONS.length]`;
the retry call uses the default `maxRetries = 3`. -/
def generateNextQuestion (gen : ModelBehavior) (store : Sessions) (sessionId : String) :
    String × Sessions :=
  let sec := BMC_SECTIONS.getD
    ((((lookupS store sessionId).bind Session.bmcProgress).getD 0) % BMC_SECTIONS.length) ""
  match (generateContentWithRetry gen 3).result with
  | .ok aiMessage =>
      let s0 := (lookupS store sessionId).getD bareBmcSession
      (aiMessage, setS store sessionId { s0 with chat := s0.chat ++ [⟨"assistant", aiMessage⟩] })
  | .error _ =>
      let fallbackMessage := (fallbackQuestions sec).getD defaultFallbackQuestion
      let s0 := (lookupS store sessionId).getD bareBmcSession
      (fallbackMessage,
       setS store sessionId { s0 with chat := s0.chat ++ [⟨"assistant", fallbackMessage⟩] })

/-- Character-list prefix test (helper for the substring test below). -/
def startsWithList : List Char → List Char → Bool
  | [], _ => true
  | _ :: _, [] => false
  | a :: as, b :: bs => a == b && startsWithList as bs

/-- Character-list substring test (helper for jsIncludes). -/
def containsSubList (sub : List Char) : List Char → Bool
  | [] => startsWithList sub []
  | c :: rest => startsWithList sub (c :: rest) || containsSubList sub rest

/-- JavaScript `String.prototype.toLowerCase`, restricted to ASCII case
mapping; on the Arabic keyword alphabet used by the classifier it is the
identity, exactly as in JS (Arabic script has no case). -/
def jsToLower (s : String) : String := ⟨s.data.map Char.toLower⟩

/-- JavaScript `s.includes(sub)`. -/
def jsIncludes (s sub : String) : Bool := containsSubList sub.data s.data

/-- The `designContext` classification of handleDesignAssistant (src/index.js
lines 278–286): lowercase the message, then walk a fixed ordered if/else-if
chain of substring rules; the first matching rule wins, default "عام". -/
def classifyDesignContext (userMessage : String) : String :=
  let lowerMessage := jsToLower userMessage
  if jsIncludes lowerMessage "شعار" || jsIncludes lowerMessage "لوجو" then "تصميم الشعار"
  else if jsIncludes lowerMessage "موقع" || jsIncludes lowerMessage "ويب" then "تصميم الموقع الإلكتروني"
  else if jsIncludes lowerMessage "هوية" || jsIncludes lowerMessage "براند" then "الهوية البصرية"
  else if jsIncludes lowerMessage "غلاف" || jsIncludes lowerMessage "كتاب" then "تصميم الغلاف"
  else if jsIncludes lowerMessage "منشور" || jsIncludes lowerMessage "سوشيال" then "تصميم منشورات وسائل التواصل"
  else if jsIncludes lowerMessage "عرض" || jsIncludes lowerMessage "عروض" then "تصميم العروض التقديمية"
  else "عام"

/-- True when at least one classification rule matches the message, i.e. the
classifier does not fall through to "عام". -/
def matchesAnyRule (userMessage : String) : Bool :=
  let m := jsToLower userMessage
  jsIncludes m "شعار" || jsIncludes m "لوجو" || jsIncludes m "موقع" || jsIncludes m "ويب" ||
  jsIncludes m "هوية" || jsIncludes m "براند" || jsIncludes m "غلاف" || jsIncludes m "كتاب" ||
  jsIncludes m "منشور" || jsIncludes m "سوشيال" || jsIncludes m "عرض" || jsIncludes m "عروض"

/-- The fixed header of the templated design fallback (src/index.js line 310). -/
def designHeader : String := "🎨 **مساعد التصميم الإبداعي**\n\n"

/-- The logo-design bullet list (src/index.js line 317). -/
def logoBullets : String :=
  "• اختر ألواناً تعبر عن هوية مشروعك\n• استخدم خطوطاً واضحة وسهلة القراءة\n• اجعل الشعار بسيطاً وقابلاً للتذكر\n• تأكد من وضوح الشعار بمختلف الأحجام\n• فكر في القيمة التي يقدمها مشروعك"

/-- The website-design bullet list (src/index.js line 319). -/
def websiteBullets : String :=
  "• ركز على تجربة المستخدم البسيطة\n• استخدم ألواناً متناسقة مع الهوية\n• اجعل الموقع سريع التحميل\n• تأكد من توافقه مع الجوال\n• استخدم صوراً عالية الجودة"

/-- The visual-identity bullet list (src/index.js line 321). -/
def identityBullets : String :=
  "• حدد لوحة ألوان ثابتة\n• اختر خطوطاً متناسقة\n• أنشئ دليل هوية مرئية\n• حافظ على الاتساق في جميع المواد\n• فكر في جمهورك المستهدف"

/-- The generic body used by the final else branch (src/index.js line 323). -/
def genericDesignBody : String :=
  "يمكنني مساعدتك في:\n\n• تصميم الشعار والهوية البصرية\n• تصميم المواقع والتطبيقات\n• تصميم العروض التقديمية\n• تصميم منشورات وسائل التواصل\n• نصائح الألوان والخطوط\n• أدوات التصميم المجانية\n\nما هو نوع التصميم الذي تحتاجه؟"

/-- The constant closing tip naming free design tools (src/index.js line 326). -/
def designClosingTip : String :=
  "\n\n💡 *يمكنك استخدام أدوات مثل: Canva, Figma, Adobe Express للبدء*"

/-- The header part of the fallback: the constant banner, plus the
"في مجال …، أنصحك بـ:" line for every non-general topic
(src/index.js lines 310–314). -/
def designFallbackIntro (designContext : String) : String :=
  designHeader ++
    (if designContext ≠ "عام" then "في مجال " ++ designContext ++ "، أنصحك بـ:\n\n" else "")

/-- The bullet body: a topic-specific list only for the logo, website and
visual-identity topics; every other topic (including the cover, social-media
and presentation topics and the general one) gets the generic body
(src/index.js lines 316–324). -/
def designFallbackBody (designContext : String) : String :=
  if designContext = "تصميم الشعار" then logoBullets
  else if designContext = "تصميم الموقع الإلكتروني" then websiteBullets
  else if designContext = "الهوية البصرية" then identityBullets
  else genericDesignBody

/-- The whole templated fallback answer of handleDesignAssistant
(src/index.js lines 310–326). -/
def designFallback (designContext : String) : String :=
  designFallbackIntro designContext ++ designFallbackBody designContext ++ designClosingTip

/-- The session shape auto-created at the top of handleDesignAssistant
(src/index.js lines 267–274): design mode, empty chat, progress 0, and no
`createdAt` field. -/
def freshDesignSession : Session :=
  { chat := [], mode := "design", bmcProgress := some 0, createdAt := none }

/-- `handleDesignAssistant(sessionId, userMessage)` (src/index.js lines
266–331): auto-create the session if absent, append the user turn, classify
the topic, call the model (through the retry wrapper, default 3 attempts) and
on failure append and return the deterministic templated fallback.  The
advisory prompt (lines 288–301) only feeds the abstracted model call. -/
def handleDesignAssistant (gen : ModelBehavior) (store : Sessions)
    (sessionId userMessage : String) : String × Sessions :=
  let store1 :=
    match lookupS store sessionId with
    | none => setS store sessionId freshDesignSession
    | some _ => store
  let s1 := (lookupS store1 sessionId).getD freshDesignSession
  let store2 := setS store1 sessionId { s1 with chat := s1.chat ++ [⟨"user", userMessage⟩] }
  let designContext := classifyDesignContext userMessage
  match (generateContentWithRetry gen 3).result with
  | .ok aiResponse =>
      let s2 := (lookupS store2 sessionId).getD freshDesignSession
      (aiResponse,
       setS store2 sessionId { s2 with chat := s2.chat ++ [⟨"assistant", aiResponse⟩] })
  | .error _ =>
      let f := designFallback designContext
      let s2 := (lookupS store2 sessionId).getD freshDesignSession
      (f, setS store2 sessionId { s2 with chat := s2.chat ++ [⟨"assistant", f⟩] })

/-- `/api/start` (src/index.js lines 550–560): unconditionally overwrite the
session with a fresh bmc-mode record carrying `createdAt = now`. -/
def apiStart (store : Sessions) (studentId : String) (now : Int) : Sessions :=
  setS store studentId
    { chat := [], mode := "bmc", bmcProgress := some 0, createdAt := some now }

/-- Response of `/api/next`: either the 400 "No active session found" rejection
or the JSON body `{question, progress, totalSections}` (`progress` is read back
from the session after the question is generated and may be the JS `undefined`,
hence an Option). -/
inductive NextResp where
  | noSession
  | ok (question : String) (progress : Option Nat) (totalSections : Nat)
deriving DecidableEq, Repr

/-- `/api/next` (src/index.js lines 562–580). -/
def apiNext (gen : ModelBehavior) (store : Sessions) (studentId : String) :
    NextResp × Sessions :=
  match lookupS store studentId with
  | none => (.noSession, store)
  | some _ =>
      let r := generateNextQuestion gen store studentId
      (.ok r.1 ((lookupS r.2 studentId).bind Session.bmcProgress) BMC_SECTIONS.length, r.2)

/-- Response of `/api/chat`: the 400 rejection for a missing/empty id or
message, or the JSON body `{response, mode}`. -/
inductive ChatResp where
  | badRequest
  | ok (response : String) (mode : String)
deriving DecidableEq, Repr

/-- `/api/chat` (src/index.js lines 582–599); the empty string plays the role
of a missing/falsy `studentId` or `message`. -/
def apiChat (gen : ModelBehavior) (store : Sessions) (studentId message : String) :
    ChatResp × Sessions :=
  if studentId = "" || message = "" then (.badRequest, store)
  else
    let r := handleDesignAssistant gen store studentId message
    (.ok r.1 (((lookupS r.2 studentId).map Session.mode).getD "design"), r.2)

/-- The session TTL of the cleanup timer: 2 hours in ms (src/index.js line 659). -/
def SESSION_TTL_MS : Int := 2 * 60 * 60 * 1000

/-- The cleanup timer period: 30 minutes in ms (src/index.js line 672). -/
def CLEANUP_INTERVAL_MS : Int := 30 * 60 * 1000

/-- `sessions[sessionId].createdAt < twoHoursAgo` for one session record; a
record without `createdAt` compares as JS `undefined < Date`, which is false,
so such a session is never treated as expired. -/
def sessionExpired (cutoff : Int) (s : Session) : Bool :=
  match s.createdAt with
  | some t => t < cutoff
  | none => false

/-- One run of the cleanup interval body (src/index.js lines 657–672):
delete every expired session and count the deletions. -/
def sweepExpired (store : Sessions) (now : Int) : Sessions × Nat :=
  let cutoff := now - SESSION_TTL_MS
  (store.filter (fun p => ! sessionExpired cutoff p.2),
   store.countP (fun p => sessionExpired cutoff p.2))

/-- Modelled from the spec: the caller's advance step for the BMC flow (the
`/api/answer` route, referenced on line 542 of src/unnamed/part_000 but whose
body is not included in the sources).  Per spec §4.1, `advance(id)` increments
`progress`; progress is only read modulo the catalog length. -/
def advance (store : Sessions) (id : String) : Sessions :=
  match lookupS store id with
  | none => store
  | some s => setS store id { s with bmcProgress := some (s.bmcProgress.getD 0 + 1) }

/-- Fixture: a bmc session sitting at progress 13 (exercises the modulo-9
section indexing: 13 mod 9 = 4, "Customer Segments"). -/
def progress13Session : Session :=
  { chat := [], mode := "bmc", bmcProgress := some 13, createdAt := none }

/-- Fixture: a one-session store holding progress13Session. -/
def progress13Store : Sessions := [("student7", progress13Session)]

/-- Fixture: the sweep time used by the sweep witnesses (ms). -/
def sweepNow : Int := 1000000000

/-- Fixture: a session created 3 hours before sweepNow. -/
def threeHourOldSession : Session :=
  { chat := [], mode := "bmc", bmcProgress := some 0,
    createdAt := some (sweepNow - 3 * 60 * 60 * 1000) }

/-- Fixture: a session created 10 minutes before sweepNow. -/
def tenMinuteOldSession : Session :=
  { chat := [], mode := "bmc", bmcProgress := some 0,
    createdAt := some (sweepNow - 10 * 60 * 1000) }

/-- Fixture: a two-session store for the sweep witnesses. -/
def sweepFixtureStore : Sessions :=
  [("old", threeHourOldSession), ("young", tenMinuteOldSession)]

/- ================= Helper lemmas ================= -/

theorem retryGo_always429 (remaining : Nat) :
    ∀ (attempt attemptsAcc sleepAcc : Nat) (le : Option JsError),
      retryGo always429 attempt (remaining + 1) le attemptsAcc sleepAcc =
        { result := .error (some err429), attempts := attemptsAcc + (remaining + 1),
          totalSleep := sleepAcc + sleepSpan attempt (remaining + 1) } := by
  induction remaining with
  | zero =>
      intro attempt attemptsAcc sleepAcc le
      simp [retryGo, always429, err429, sleepSpan]
  | succ r ih =>
      intro attempt attemptsAcc sleepAcc le
      rw [retryGo]
      simp only [always429]
      rw [if_pos (show err429.status = some 429 from rfl), ih]
      simp only [RetryResult.mk.injEq, sleepSpan]
      refine ⟨trivial, by omega, by ring⟩

theorem sleepSpan_one (n : Nat) : sleepSpan 1 n = backoffSum n := by
  have key : ∀ (len a : Nat), sleepSpan a (len + 1) = sleepSpan a len + (a + len) * 2000 := by
    intro len
    induction len with
    | zero => intro a; simp [sleepSpan]
    | succ l ih =>
        intro a
        show a * 2000 + sleepSpan (a + 1) (l + 1) =
          (a * 2000 + sleepSpan (a + 1) l) + (a + (l + 1)) * 2000
        rw [ih (a + 1)]
        ring
  induction n with
  | zero => rfl
  | succ m ih =>
      rw [key m 1, ih, backoffSum]
      omega

theorem lookupS_setS_self (store : Sessions) (id : String) (s : Session) :
    lookupS (setS store id s) id = some s := by
  induction store with
  | nil => simp [setS, lookupS]
  | cons p rest ih =>
      obtain ⟨k, v⟩ := p
      by_cases h : k = id
      · simp [setS, lookupS, h]
      · simp [setS, lookupS, h, ih]

theorem countP_add_length_filter_not {α : Type} (p : α → Bool) (l : List α) :
    l.countP p + (l.filter (fun x => ! p x)).length = l.length := by
  induction l with
  | nil => rfl
  | cons x xs ih => by_cases h : p x <;> simp [List.countP_cons, List.filter_cons, h] <;> omega

/- ================= C1 ================= -/

/-- C1, counterexample to the claim as stated: with a model that reports 429 on
every attempt and maxRetries = 1, the call makes 1 attempt and fails with the
last error, but the total backoff slept is 2000 ms, not the claimed
2000 + ... + (maxRetries-1)*2000 = 0 ms: the code sleeps `attempt * 2000` ms
inside the catch even when the failed attempt was the last one. -/
theorem C1_counterexample :
    (generateContentWithRetry always429 1).attempts = 1 ∧
    (generateContentWithRetry always429 1).result = .error (some err429) ∧
    (generateContentWithRetry always429 1).totalSleep = 2000 ∧
    backoffSum (1 - 1) = 0 ∧
    (generateContentWithRetry always429 1).totalSleep ≠ backoffSum (1 - 1) :=
  ⟨rfl, rfl, rfl, rfl, by decide⟩

/-- C1 (amended): for every maxRetries ≥ 1, calling the retry wrapper against
a model that reports rate-limiting (status 429) on every attempt makes exactly
maxRetries attempts and then fails with the last error, and the total
artificial backoff delay slept equals 2000 + 4000 + ... + maxRetries*2000 ms:
a sleep of attempt*2000 ms follows every failed rate-limited attempt,
including the final one. -/
theorem C1_retry_exhausts_attempts_with_backoff_after_every_attempt
    (maxRetries : Nat) (h : 1 ≤ maxRetries) :
    generateContentWithRetry always429 maxRetries =
      { result := .error (some err429), attempts := maxRetries,
        totalSleep := backoffSum maxRetries } := by
  obtain ⟨m, rfl⟩ : ∃ m, maxRetries = m + 1 := ⟨maxRetries - 1, by omega⟩
  rw [generateContentWithRetry, retryGo_always429 m 1 0 0 none, sleepSpan_one]
  simp

theorem C1_witness :
    1 ≤ 3 ∧
    generateContentWithRetry always429 3 =
      { result := .error (some err429), attempts := 3, totalSleep := backoffSum 3 } :=
  ⟨by decide, C1_retry_exhausts_attempts_with_backoff_after_every_attempt 3 (by decide)⟩

/- ================= C7 ================= -/

/-- C7: a model that fails with a non-rate-limited (status ≠ 429) error on the
first of 3 allowed attempts causes exactly one attempt: the loop breaks
immediately, sleeps nothing, and surfaces that error to the caller. -/
theorem C7_non_retryable_error_stops_after_one_attempt
    (gen : ModelBehavior) (e : JsError)
    (hfail : gen 1 = .err e) (hstatus : e.status ≠ some 429) :
    generateContentWithRetry gen 3 =
      { result := .error (some e), attempts := 1, totalSleep := 0 } := by
  show retryGo gen 1 (2 + 1) none 0 0 = _
  rw [retryGo]
  simp only [hfail]
  simp [hstatus]

theorem C7_witness :
    modelUnavailable 1 = .err { status := none, msg := "Cannot read properties of undefined" } ∧
    ({ status := none, msg := "Cannot read properties of undefined" } : JsError).status ≠ some 429 ∧
    generateContentWithRetry modelUnavailable 3 =
      { result := .error (some { status := none, msg := "Cannot read properties of undefined" }),
        attempts := 1, totalSleep := 0 } :=
  ⟨rfl, by decide,
   C7_non_retryable_error_stops_after_one_attempt modelUnavailable _ rfl (by decide)⟩

/- ================= C2 ================= -/

/-- C2: after startSession("S1"), nextQuestion with the model unavailable
returns the fixed fallback for "Key Partners" and the transcript length is 1;
after the caller's advance step (which alone increments progress),
nextQuestion with the model unavailable returns the fallback for
"Key Activities". -/
theorem C2_bmc_scenario :
    (generateNextQuestion modelUnavailable (apiStart [] "S1" 0) "S1").1 =
      "من هم الشركاء الرئيسيون الذين تحتاجهم لتنفيذ مشروعك؟" ∧
    ((lookupS (generateNextQuestion modelUnavailable (apiStart [] "S1" 0) "S1").2 "S1").map
      (fun s => s.chat.length)) = some 1 ∧
    (generateNextQuestion modelUnavailable
        (advance (generateNextQuestion modelUnavailable (apiStart [] "S1" 0) "S1").2 "S1")
        "S1").1 =
      "ما هي الأنشطة الرئيسية التي يجب القيام بها لتقديم قيمة للعملاء؟" :=
  ⟨by decide, by decide, by decide⟩

/- ================= C3 ================= -/

theorem fallbackQuestions_sections (j : Nat) (hj : j < 9) :
    ∃ fq, fallbackQuestions (BMC_SECTIONS.getD j "") = some fq := by
  interval_cases j <;> exact ⟨_, rfl⟩

/-- C3: for every section index k, nextQuestion on a session whose progress is
k, with the model unavailable, returns exactly the fixed fallback question for
catalog[k mod 9], and afterwards the last entry of that session's transcript
equals the returned text with role assistant. -/
theorem C3_model_down_returns_section_fallback
    (k : Nat) (store : Sessions) (sid : String) (s : Session)
    (hs : lookupS store sid = some s) (hp : s.bmcProgress = some k) :
    ∃ fq, fallbackQuestions (BMC_SECTIONS.getD (k % 9) "") = some fq ∧
      (generateNextQuestion modelUnavailable store sid).1 = fq ∧
      ((lookupS (generateNextQuestion modelUnavailable store sid).2 sid).map
        (fun s2 => s2.chat.getLast?)) = some (some ⟨"assistant", fq⟩) := by
  obtain ⟨fq, hfq⟩ := fallbackQuestions_sections (k % 9) (Nat.mod_lt _ (by norm_num))
  have hgen : (generateContentWithRetry modelUnavailable 3).result =
      Except.error (some { status := none, msg := "Cannot read properties of undefined" }) := rfl
  have hlen : BMC_SECTIONS.length = 9 := rfl
  have hfq' := hfq
  simp only [List.getD_eq_getElem?_getD] at hfq'
  refine ⟨fq, hfq, ?_, ?_⟩ <;>
    simp [generateNextQuestion, hgen, hs, hp, hlen, hfq', lookupS_setS_self,
      List.getLast?_concat]

theorem C3_witness :
    lookupS progress13Store "student7" = some progress13Session ∧
    progress13Session.bmcProgress = some 13 ∧
    (∃ fq, fallbackQuestions (BMC_SECTIONS.getD (13 % 9) "") = some fq ∧
      (generateNextQuestion modelUnavailable progress13Store "student7").1 = fq ∧
      ((lookupS (generateNextQuestion modelUnavailable progress13Store "student7").2
          "student7").map (fun s2 => s2.chat.getLast?)) = some (some ⟨"assistant", fq⟩)) :=
  ⟨rfl, rfl,
   C3_model_down_returns_section_fallback 13 progress13Store "student7" progress13Session rfl rfl⟩

/- ================= C4 ================= -/

/-- C4: topic classification is a deterministic function of the message text
using (lowercased) substring matching against the fixed ordered rule chain
with first-match-wins: "أحتاج تصميم شعار لمشروعي" classifies to the
logo-design topic, "كيف أصمم موقع؟" to the website-design topic, and any
message matching no rule classifies to the general topic "عام". -/
theorem C4_topic_classification :
    classifyDesignContext "أحتاج تصميم شعار لمشروعي" = "تصميم الشعار" ∧
    classifyDesignContext "كيف أصمم موقع؟" = "تصميم الموقع الإلكتروني" ∧
    ∀ msg : String, matchesAnyRule msg = false → classifyDesignContext msg = "عام" := by
  refine ⟨by decide, by decide, ?_⟩
  intro msg h
  simp only [matchesAnyRule, Bool.or_eq_false_iff] at h
  obtain ⟨⟨⟨⟨⟨⟨⟨⟨⟨⟨⟨h1, h2⟩, h3⟩, h4⟩, h5⟩, h6⟩, h7⟩, h8⟩, h9⟩, h10⟩, h11⟩, h12⟩ := h
  simp [classifyDesignContext, h1, h2, h3, h4, h5, h6, h7, h8, h9, h10, h11, h12]

theorem C4_witness :
    matchesAnyRule "مرحبا" = false ∧ classifyDesignContext "مرحبا" = "عام" :=
  ⟨by decide, C4_topic_classification.2.2 "مرحبا" (by decide)⟩

/- ================= C5 ================= -/

set_option maxRecDepth 40000 in
/-- C5, counterexample to the claim as stated: the message "أريد تصميم غلاف"
classifies to the cover-design topic, which is not the general topic, yet the
templated fallback answer bodies it with the generic list — the same body the
general topic receives — so the generic list is not used only when the topic
is "general". -/
theorem C5_counterexample :
    classifyDesignContext "أريد تصميم غلاف" = "تصميم الغلاف" ∧
    ("تصميم الغلاف" : String) ≠ "عام" ∧
    (handleDesignAssistant modelUnavailable [] "s1" "أريد تصميم غلاف").1 =
      designFallbackIntro "تصميم الغلاف" ++ genericDesignBody ++ designClosingTip ∧
    designFallbackBody "عام" = genericDesignBody :=
  ⟨by decide, by decide, by decide, by decide⟩

/-- C5 (amended): when generation fails in respond, the returned templated
answer is deterministic: a topic header, then a bullet-practice body, then the
constant closing tip naming free/low-cost tools, and this text is appended to
the transcript as the last assistant turn; however topic-specific bullet
lists exist only for the logo-design, website-design and visual-identity
topics — every other topic, the general one included, receives the generic
list. -/
theorem C5_design_fallback_structure (store : Sessions) (sid msg : String) :
    (handleDesignAssistant modelUnavailable store sid msg).1 =
      designFallbackIntro (classifyDesignContext msg) ++
        designFallbackBody (classifyDesignContext msg) ++ designClosingTip ∧
    (classifyDesignContext msg ≠ "تصميم الشعار" →
      classifyDesignContext msg ≠ "تصميم الموقع الإلكتروني" →
      classifyDesignContext msg ≠ "الهوية البصرية" →
      designFallbackBody (classifyDesignContext msg) = genericDesignBody) ∧
    ((lookupS (handleDesignAssistant modelUnavailable store sid msg).2 sid).map
      (fun s2 => s2.chat.getLast?)) =
      some (some ⟨"assistant",
        designFallbackIntro (classifyDesignContext msg) ++
          designFallbackBody (classifyDesignContext msg) ++ designClosingTip⟩) := by
  have hgen : (generateContentWithRetry modelUnavailable 3).result =
      Except.error (some { status := none, msg := "Cannot read properties of undefined" }) := rfl
  refine ⟨?_, ?_, ?_⟩
  · cases hl : lookupS store sid <;>
      simp [handleDesignAssistant, hgen, hl, designFallback, lookupS_setS_self]
  · intro h1 h2 h3
    simp [designFallbackBody, h1, h2, h3]
  · cases hl : lookupS store sid <;>
      simp [handleDesignAssistant, hgen, hl, designFallback, lookupS_setS_self,
        List.getLast?_concat]

set_option maxRecDepth 40000 in
theorem C5_witness :
    designFallbackBody (classifyDesignContext "أريد تصميم غلاف") = genericDesignBody :=
  (C5_design_fallback_structure [] "s1" "أريد تصميم غلاف").2.1
    (by decide) (by decide) (by decide)

/- ================= C6 ================= -/

/-- C6: respond (the chat step) never fails on an unknown student id: if the
session is absent it creates one in design mode (empty transcript) as a side
effect, then appends the user message as the first, user-role turn before
producing a reply — for any model behaviour. -/
theorem C6_chat_autocreates_design_session
    (gen : ModelBehavior) (store : Sessions) (sid msg : String)
    (habsent : lookupS store sid = none) :
    ∃ s, lookupS (handleDesignAssistant gen store sid msg).2 sid = some s ∧
      s.mode = "design" ∧ s.chat.head? = some ⟨"user", msg⟩ := by
  cases hr : (generateContentWithRetry gen 3).result <;>
    simp [handleDesignAssistant, habsent, hr, lookupS_setS_self, freshDesignSession]

theorem C6_witness :
    lookupS [] "newStudent" = none ∧
    ∃ s, lookupS (handleDesignAssistant modelUnavailable [] "newStudent" "مرحبا").2
        "newStudent" = some s ∧
      s.mode = "design" ∧ s.chat.head? = some ⟨"user", "مرحبا"⟩ :=
  ⟨rfl, C6_chat_autocreates_design_session modelUnavailable [] "newStudent" "مرحبا" rfl⟩

/- ================= C8 ================= -/

/-- C8: one run of the expiry sweep (TTL = 2 hours) removes from the store
every session whose createdAt is older than now minus the TTL and retains
every session whose createdAt is not older than that; the reported count is
the number of removed sessions, and the sweep timer's period is the fixed 30
minutes. -/
theorem C8_sweep_removes_exactly_expired
    (store : Sessions) (now : Int) (id : String) (s : Session) (t : Int)
    (hmem : (id, s) ∈ store) (hc : s.createdAt = some t) :
    ((id, s) ∈ (sweepExpired store now).1 ↔ ¬ t < now - SESSION_TTL_MS) ∧
    (sweepExpired store now).2 = store.length - (sweepExpired store now).1.length ∧
    SESSION_TTL_MS = 2 * 60 * 60 * 1000 ∧
    CLEANUP_INTERVAL_MS = 30 * 60 * 1000 := by
  refine ⟨?_, ?_, rfl, rfl⟩
  · simp [sweepExpired, List.mem_filter, hmem, sessionExpired, hc]
  · have h1 := countP_add_length_filter_not
      (fun q => sessionExpired (now - SESSION_TTL_MS) q.2) store
    simp only [sweepExpired]
    omega

theorem C8_witness :
    (("old", threeHourOldSession) ∉ (sweepExpired sweepFixtureStore sweepNow).1) ∧
    (("young", tenMinuteOldSession) ∈ (sweepExpired sweepFixtureStore sweepNow).1) :=
  ⟨fun hm => ((C8_sweep_removes_exactly_expired sweepFixtureStore sweepNow "old"
      threeHourOldSession (sweepNow - 3 * 60 * 60 * 1000) (by decide) rfl).1.mp hm)
      (by decide),
   ((C8_sweep_removes_exactly_expired sweepFixtureStore sweepNow "young"
      tenMinuteOldSession (sweepNow - 10 * 60 * 1000) (by decide) rfl).1.mpr (by decide))⟩

/- ================= C9 ================= -/

/-- C9: the strict continue-a-session operation (/api/next) on a student id
with no session fails with the no-active-session rejection and leaves the
session store unchanged, while on an existing session it returns a result of
shape {question, progress, totalSections} — never a hard generation failure —
for any model behaviour, including one that always fails. -/
theorem C9_next_route_session_policy (gen : ModelBehavior) (store : Sessions) (sid : String) :
    (lookupS store sid = none → apiNext gen store sid = (.noSession, store)) ∧
    (∀ s, lookupS store sid = some s →
      ∃ q p, apiNext gen store sid =
        (.ok q p BMC_SECTIONS.length, (generateNextQuestion gen store sid).2)) := by
  constructor
  · intro h
    simp [apiNext, h]
  · intro s h
    exact ⟨(generateNextQuestion gen store sid).1,
      (lookupS (generateNextQuestion gen store sid).2 sid).bind Session.bmcProgress,
      by simp [apiNext, h]⟩

theorem C9_witness :
    (lookupS [] "ghost" = none ∧ apiNext modelUnavailable [] "ghost" = (.noSession, [])) ∧
    (lookupS progress13Store "student7" = some progress13Session ∧
      ∃ q p, apiNext modelUnavailable progress13Store "student7" =
        (.ok q p BMC_SECTIONS.length,
         (generateNextQuestion modelUnavailable progress13Store "student7").2)) :=
  ⟨⟨rfl, (C9_next_route_session_policy modelUnavailable [] "ghost").1 rfl⟩,
   ⟨rfl, (C9_next_route_session_policy modelUnavailable progress13Store "student7").2
      progress13Session rfl⟩⟩

/- ================= C10 ================= -/

/-- C10: sessions created implicitly — by the chat operation's auto-create or
by generateNextQuestion's internal auto-create — have no createdAt field; the
expiry sweep never removes a session without createdAt, whatever the sweep
time; any session the sweep does remove carries a createdAt; and the explicit
/api/start operation is the one that stamps createdAt with the current time. -/
theorem C10_implicit_sessions_never_expire :
    (∀ (gen : ModelBehavior) (store : Sessions) (sid msg : String),
      lookupS store sid = none →
      ∃ s, lookupS (handleDesignAssistant gen store sid msg).2 sid = some s ∧
        s.createdAt = none) ∧
    (∀ (gen : ModelBehavior) (store : Sessions) (sid : String),
      lookupS store sid = none →
      ∃ s, lookupS (generateNextQuestion gen store sid).2 sid = some s ∧
        s.createdAt = none) ∧
    (∀ (store : Sessions) (now : Int) (id : String) (s : Session),
      (id, s) ∈ store → s.createdAt = none → (id, s) ∈ (sweepExpired store now).1) ∧
    (∀ (store : Sessions) (now : Int) (id : String) (s : Session),
      (id, s) ∈ store → (id, s) ∉ (sweepExpired store now).1 → ∃ t, s.createdAt = some t) ∧
    (∀ (store : Sessions) (sid : String) (now : Int),
      ∃ s, lookupS (apiStart store sid now) sid = some s ∧ s.createdAt = some now) := by
  refine ⟨?_, ?_, ?_, ?_, ?_⟩
  · intro gen store sid msg h
    cases hr : (generateContentWithRetry gen 3).result <;>
      simp [handleDesignAssistant, h, hr, lookupS_setS_self, freshDesignSession]
  · intro gen store sid h
    cases hr : (generateContentWithRetry gen 3).result <;>
      simp [generateNextQuestion, h, hr, lookupS_setS_self, bareBmcSession]
  · intro store now id s hmem hc
    simp [sweepExpired, List.mem_filter, hmem, sessionExpired, hc]
  · intro store now id s hmem hnot
    cases hc : s.createdAt with
    | some t => exact ⟨t, rfl⟩
    | none =>
        exact absurd
          (by simp [sweepExpired, List.mem_filter, hmem, sessionExpired, hc]) hnot
  · intro store sid now
    exact ⟨_, lookupS_setS_self store sid _, rfl⟩

theorem C10_witness :
    (∃ s, lookupS (handleDesignAssistant modelUnavailable [] "imp1" "مرحبا").2 "imp1" =
        some s ∧ s.createdAt = none) ∧
    ("imp2", freshDesignSession) ∈ (sweepExpired [("imp2", freshDesignSession)] sweepNow).1 :=
  ⟨C10_implicit_sessions_never_expire.1 modelUnavailable [] "imp1" "مرحبا" rfl,
   C10_implicit_sessions_never_expire.2.2.1 [("imp2", freshDesignSession)] sweepNow "imp2"
     freshDesignSession (by simp) rfl⟩
